import Mathlib

/-!
# Verification of the book-embedding pipeline (vector.py / main.py)

This file gives a shallow embedding, in Lean, of the document-synthesis
pipeline of `vector.py`:

* `load_jsonl_to_df` — loading the JSONL file (optionally in chunks) and the
  numeric-coercion / decade-derivation step;
* the four document passes (`Book` row documents, `books_by_author`
  aggregates, `books_by_decade` aggregates, `top_books` / `TopRated`
  documents), concatenated by `documents`;
* `vector_store` — the build-or-load branch over the persisted FAISS store.

Modelling conventions, chosen to match the pandas semantics of the source:

* A numeric cell that is missing, or whose raw value `pd.to_numeric` with
  `errors="coerce"` cannot parse, is `none` (pandas `NaN`).
* `publication_year` and `ratings_count` are integral in the input schema and
  are modelled as `Option Int`; `average_rating` may be fractional and is
  modelled as `Option Rat`.
* A pandas numeric column is stored as `int64` exactly when no cell is
  missing (and, for ratings, no cell is fractional); otherwise it is
  `float64` and every cell prints with a trailing `.0` when integral, and a
  missing cell prints as `nan`.  The per-column flags are computed by
  `dtypes` and the printing is done by `optIntColStr` / `optRatColStr`.
* `sort_values` / `groupby(sort=True)` are modelled with the stable
  `List.insertionSort`; `groupby` drops missing keys (pandas `dropna=True`
  default), and `df.explode` of an empty list produces a single missing row.
* Python's `int(x)` on a column cell raises `ValueError` on `NaN`; a pass
  performing it is modelled in the `Except String` monad.
-/

/-- A normalized record (one row of the dataframe after the coercions of
`load_jsonl_to_df`): `id`, `title`, `authors`, numeric fields with `none`
for pandas `NaN`, and the cover image reference. -/
structure Record where
  id : Nat
  title : String
  authors : List String
  publication_year : Option Int
  average_rating : Option Rat
  ratings_count : Option Int
  image_url : String
deriving DecidableEq, Repr

/-- The result of reading one raw numeric JSON cell, before
`pd.to_numeric(errors="coerce")`: a parsed value, an unparsable value, or a
missing cell. -/
inductive RawNum (α : Type) where
  | val (v : α)
  | unparsable
  | missing
deriving DecidableEq, Repr

/-- `pd.to_numeric(errors="coerce")` on one cell: unparsable and missing
cells both degrade to `NaN` (`none`). -/
def toNumeric {α : Type} : RawNum α → Option α
  | .val v => some v
  | .unparsable => none
  | .missing => none

/-- One raw line of the JSONL file, before schema normalization. -/
structure RawRecord where
  id : Nat
  title : String
  authors : List String
  publication_year : RawNum Int
  average_rating : RawNum Rat
  ratings_count : RawNum Int
  image_url : String
deriving DecidableEq, Repr

/-- The per-row schema coercion performed by `load_jsonl_to_df` (lines 45-49
of `vector.py`): title kept as text, authors kept as a list, the three
numeric columns coerced with `errors="coerce"`. -/
def normalizeRecord (r : RawRecord) : Record :=
  { id := r.id
    title := r.title
    authors := r.authors
    publication_year := toNumeric r.publication_year
    average_rating := toNumeric r.average_rating
    ratings_count := toNumeric r.ratings_count
    image_url := r.image_url }

/-- Worker for `chunksOf`, structurally recursive on a fuel argument that
bounds the number of chunks (the list length suffices, since every chunk
consumes at least one element). -/
def chunksOfAux {α : Type} (n : Nat) : Nat → List α → List (List α)
  | 0, _ => []
  | _ + 1, [] => []
  | fuel + 1, x :: xs =>
    (x :: xs).take n :: chunksOfAux n fuel ((x :: xs).drop n)

/-- Split a list into consecutive chunks of size `n`; models reading the
JSONL file with `chunksize=n` and collecting the chunks. -/
def chunksOf {α : Type} (n : Nat) (l : List α) : List (List α) :=
  chunksOfAux n l.length l

/-- `load_jsonl_to_df` (lines 23-54 of `vector.py`): read the file, in
chunks of `chunkSize` rows concatenated in order when `chunkSize` is given
and truthy, and apply the schema coercions.  The file is modelled as the
list of its raw records; the derived `decade` column is the pure function
`decadeOf` below. -/
def load_jsonl_to_df (file : List RawRecord) (chunkSize : Option Nat) : List Record :=
  let rows :=
    match chunkSize with
    | some n => if n = 0 then file else (chunksOf n file).flatten
    | none => file
  rows.map normalizeRecord

/-- The derived `decade` column (line 52 of `vector.py`):
`(publication_year // 10) * 10`, with `NaN` propagating; `//` is Python
floor division, i.e. `Int.fdiv`. -/
def decadeOf (r : Record) : Option Int :=
  r.publication_year.map fun y => Int.fdiv y 10 * 10

/-- The storage dtype of each numeric column of the loaded dataframe: a
column is `float64` (`true`) exactly when some cell is missing — or, for the
ratings column, fractional — and `int64` (`false`) otherwise. -/
structure DTypes where
  yearFloat : Bool
  ratingFloat : Bool
  countFloat : Bool
deriving DecidableEq, Repr

/-- Compute the column dtypes of a loaded record set (see `DTypes`).  The
`decade` column has the same dtype as `publication_year`. -/
def dtypes (rs : List Record) : DTypes :=
  { yearFloat := rs.any fun r => r.publication_year.isNone
    ratingFloat := rs.any fun r =>
      r.average_rating.isNone ||
        (match r.average_rating with
         | some q => decide (q.den ≠ 1)
         | none => false)
    countFloat := rs.any fun r => r.ratings_count.isNone }

/-- Python `str()` of an integral `float64` cell: sign, digits, then `.0`
(e.g. `str(1990.0) = "1990.0"`). -/
def pyIntFloatStr (v : Int) : String :=
  (if v < 0 then "-" else "") ++ Nat.repr v.natAbs ++ ".0"

/-- Decimal digits of a fractional part `q` (with `0 ≤ q < 1`), one digit
per step, stopping at zero or when `fuel` runs out. -/
def fracChars (fuel : Nat) (q : Rat) : List Char :=
  match fuel with
  | 0 => []
  | fuel + 1 =>
    if q = 0 then []
    else
      let d : Int := (q * 10).num / (q * 10).den
      Nat.digitChar d.toNat :: fracChars fuel (q * 10 - (d : Rat))

/-- Python `str()` of a `float64` cell holding the rational `q` (exact for
the decimal fractions occurring in the data). -/
def pyFloatStr (q : Rat) : String :=
  let sign := if q.num < 0 then "-" else ""
  let n := q.num.natAbs
  if q.den = 1 then sign ++ Nat.repr n ++ ".0"
  else
    sign ++ Nat.repr (n / q.den) ++ "." ++
      (fracChars 30 ((((n % q.den : Nat) : Int) : Rat) / (q.den : Rat))).asString

/-- Rendering of an integral numeric cell inside an f-string: `NaN` prints
as `nan`; a present value prints with `.0` on a `float64` column and as a
plain integer on an `int64` column. -/
def optIntColStr (isFloat : Bool) : Option Int → String
  | none => "nan"
  | some v => if isFloat then pyIntFloatStr v else Int.repr v

/-- Rendering of a rating cell inside an f-string (see `optIntColStr`). -/
def optRatColStr (isFloat : Bool) : Option Rat → String
  | none => "nan"
  | some q => if isFloat then pyFloatStr q else Int.repr q.num

/-- The metadata dictionary attached to a `Book` document. -/
structure BookMeta where
  id : Nat
  title : String
  authors : List String
  year : Option Int
  decade : Option Int
  average_rating : Option Rat
  ratings_count : Option Int
  image_url : String
deriving DecidableEq, Repr

/-- The metadata dictionary of a synthesized document, tagged by the
document class (`type` key in the source).  In the `topRated` variant
`average_rating` is the result of Python `float()` — `none` models `NaN` —
while `ratings_count` is the result of `int()`, which cannot be `NaN`
(it raises instead, see `rating_doc`). -/
inductive Metadata where
  | book (m : BookMeta)
  | authorAgg (author : String) (count : Nat)
  | decadeAgg (decade : Int) (count : Nat)
  | topRated (title : String) (authors : List String)
      (average_rating : Option Rat) (ratings_count : Int)
deriving DecidableEq, Repr

/-- A LangChain `Document`: page content, metadata, and identifier. -/
structure Doc where
  page_content : String
  metadata : Metadata
  id : String
deriving DecidableEq, Repr

/-- Pass 3.1 (lines 80-100 of `vector.py`): one `Book` document per record.
Missing numeric metadata becomes `none` via the `pd.notnull` guards; the
content f-string renders each cell with the column dtype. -/
def bookDoc (dt : DTypes) (r : Record) : Doc :=
  { page_content :=
      "Book: " ++ r.title ++ " by " ++ String.intercalate ", " r.authors ++
        ". Published in " ++ optIntColStr dt.yearFloat r.publication_year ++
        ", average rating " ++ optRatColStr dt.ratingFloat r.average_rating ++
        " from " ++ optIntColStr dt.countFloat r.ratings_count ++ " ratings."
    metadata := .book
      { id := r.id
        title := r.title
        authors := r.authors
        year := r.publication_year
        decade := decadeOf r
        average_rating := r.average_rating
        ratings_count := r.ratings_count
        image_url := r.image_url }
    id := Nat.repr r.id }

/-- All `Book` documents, in record order. -/
def book_docs (rs : List Record) : List Doc :=
  rs.map (bookDoc (dtypes rs))

/-- Python `str.strip` (pandas `.str.strip()`): drop whitespace from both
ends, written structurally over the character list. -/
def pyStrip (s : String) : String :=
  (((s.data.dropWhile Char.isWhitespace).reverse.dropWhile
      Char.isWhitespace).reverse).asString

/-- `df.explode("authors")` restricted to one record (lines 71-72 of
`vector.py`): a record with authors `a₁ … aₙ` becomes `n` rows carrying the
trimmed author names; a record with an empty author list becomes a single
row whose author cell is missing. -/
def explode_authors (r : Record) : List (Option String) :=
  match r.authors with
  | [] => [none]
  | a :: as => (a :: as).map fun s => some (pyStrip s)

/-- The author cells of the exploded dataframe `df_exploded`, in row
order. -/
def exploded_authors (rs : List Record) : List (Option String) :=
  rs.flatMap explode_authors

/-- Codepoint-lexicographic comparison of character lists, the order Python
uses on strings. -/
def lexLeB : List Char → List Char → Bool
  | [], _ => true
  | _ :: _, [] => false
  | a :: as, b :: bs => if a = b then lexLeB as bs else decide (a.val < b.val)

/-- Python string order, as a decidable relation on `String`. -/
def strLe (s t : String) : Prop := lexLeB s.data t.data = true

instance : DecidableRel strLe := fun _ _ => instDecidableEqBool _ _

/-- Pass 3.2 grouping (lines 104-109 of `vector.py`):
`df_exploded.groupby("authors").size()` — missing keys dropped, keys sorted
ascending — then `.sort_values(by="Count", ascending=False)`. -/
def books_by_author (rs : List Record) : List (String × Nat) :=
  List.insertionSort (fun x y : String × Nat => y.2 ≤ x.2)
    ((List.insertionSort strLe ((exploded_authors rs).filterMap id).dedup).map
      fun a => (a, ((exploded_authors rs).filterMap id).count a))

/-- One `AuthorAggregate` document (lines 111-117 of `vector.py`). -/
def authorDoc (p : String × Nat) : Doc :=
  { page_content :=
      "Author " ++ p.1 ++ " has " ++ Nat.repr p.2 ++ " books in the dataset."
    metadata := .authorAgg p.1 p.2
    id := "Author-" ++ p.1 }

/-- All `AuthorAggregate` documents, in `books_by_author` order. -/
def author_docs (rs : List Record) : List Doc :=
  (books_by_author rs).map authorDoc

/-- Pass 3.3 grouping (lines 121-126 of `vector.py`):
`df.groupby("decade").size()` — missing decades dropped — sorted by decade
ascending. -/
def books_by_decade (rs : List Record) : List (Int × Nat) :=
  (List.insertionSort (fun a b : Int => a ≤ b) (rs.filterMap decadeOf).dedup).map
    fun d => (d, (rs.filterMap decadeOf).count d)

/-- One `DecadeAggregate` document (lines 128-134 of `vector.py`).  The
`books_by_decade` frame is all-numeric (`decade`, `Count`), so `iterrows`
upcasts each row Series to `float64` whenever the decade column is `float64`
(any missing year), and then both interpolated cells render as floats: the
raw `Count` cell in the content and the raw `decade` cell in the identifier
gain a `.0` suffix.  The content's decade itself goes through
`int(row["decade"])` and always renders integrally; the metadata applies
`int()` to both cells. -/
def decade_doc (dt : DTypes) (p : Int × Nat) : Doc :=
  { page_content :=
      "In the " ++ Int.repr p.1 ++ "s, " ++
        (if dt.yearFloat then pyIntFloatStr (p.2 : Int) else Nat.repr p.2) ++
        " books were published."
    metadata := .decadeAgg p.1 p.2
    id := "Decade-" ++ (if dt.yearFloat then pyIntFloatStr p.1 else Int.repr p.1) }

/-- All `DecadeAggregate` documents, in `books_by_decade` order. -/
def decade_docs (rs : List Record) : List Doc :=
  (books_by_decade rs).map (decade_doc (dtypes rs))

/-- The key order of `df.sort_values(by="average_rating", ascending=False)`:
rated rows in non-increasing rating order, `NaN` rows after every rated row
(pandas `na_position="last"`). -/
def ratingGE (a b : Record) : Prop :=
  match a.average_rating, b.average_rating with
  | some x, some y => y ≤ x
  | some _, none => True
  | none, some _ => False
  | none, none => True

instance : DecidableRel ratingGE := fun a b => by
  unfold ratingGE
  rcases a.average_rating with _ | x <;> rcases b.average_rating with _ | y <;>
    exact inferInstance

instance : IsTotal Record ratingGE where
  total a b := by
    unfold ratingGE
    rcases a.average_rating with _ | x <;> rcases b.average_rating with _ | y <;>
      simp [le_total]

instance : IsTrans Record ratingGE where
  trans a b c hab hbc := by
    unfold ratingGE at hab hbc ⊢
    generalize a.average_rating = oa at hab ⊢
    generalize b.average_rating = ob at hab hbc
    generalize c.average_rating = oc at hbc ⊢
    rcases oa with _ | x <;> rcases ob with _ | y <;> rcases oc with _ | z <;>
      try trivial
    exact le_trans hbc hab

/-- Line 138 of `vector.py` without the `.head(50)`: the whole record set
sorted by average rating descending, missing ratings last, ties in input
order. -/
def sort_by_rating_desc (rs : List Record) : List Record :=
  List.insertionSort ratingGE rs

/-- `top_books` (line 138 of `vector.py`): the first 50 rows of the sorted
dataframe. -/
def top_books (rs : List Record) : List Record :=
  (sort_by_rating_desc rs).take 50

/-- One `TopRated` document (lines 139-154 of `vector.py`).  The metadata
applies Python `float()` to the rating — `NaN` stays `NaN` — and `int()` to
the ratings count, which raises `ValueError` on `NaN`. -/
def rating_doc (dt : DTypes) (r : Record) : Except String Doc :=
  match r.ratings_count with
  | none => .error "cannot convert float NaN to integer"
  | some c =>
    .ok
      { page_content :=
          "Highly rated book: " ++ r.title ++ " by " ++
            String.intercalate ", " r.authors ++ ", average rating " ++
            optRatColStr dt.ratingFloat r.average_rating ++ " from " ++
            optIntColStr dt.countFloat r.ratings_count ++ " ratings."
        metadata := .topRated r.title r.authors r.average_rating c
        id := "TopRated-" ++ Nat.repr r.id }

/-- The `for` loop of pass 3.4: build a `TopRated` document per selected
row, aborting with the `ValueError` of the first failing row. -/
def rating_docs_loop (dt : DTypes) : List Record → Except String (List Doc)
  | [] => .ok []
  | r :: rs =>
    match rating_doc dt r with
    | .error e => .error e
    | .ok d =>
      match rating_docs_loop dt rs with
      | .error e => .error e
      | .ok ds => .ok (d :: ds)

/-- Pass 3.4 (lines 138-154 of `vector.py`): `TopRated` documents for the
rows of `top_books`, or the uncaught `ValueError`. -/
def rating_docs (rs : List Record) : Except String (List Doc) :=
  rating_docs_loop (dtypes rs) (top_books rs)

/-- The full synthesized `documents` list (Step 3 of `vector.py`): the four
passes concatenated in source order, or the uncaught exception of the
top-rated pass. -/
def documents (rs : List Record) : Except String (List Doc) :=
  match rating_docs rs with
  | .error e => .error e
  | .ok tops => .ok (book_docs rs ++ author_docs rs ++ decade_docs rs ++ tops)

/-- A FAISS index: the (embedding, document) pairs it was built from. -/
structure Index where
  pairs : List (List Rat × Doc)
deriving DecidableEq

/-- The persisted state: the index bundles saved on disk, newest first. -/
structure DiskState where
  stored : List (String × Index)

/-- `os.path.exists(db_location)`. -/
def path_exists (fs : DiskState) (loc : String) : Bool :=
  fs.stored.any fun p => p.1 == loc

/-- `FAISS.load_local`: deserialize the bundle stored at `loc`. -/
def load_local (fs : DiskState) (loc : String) : Index :=
  (((fs.stored.find? fun p => p.1 == loc).map Prod.snd).getD ⟨[]⟩)

/-- `FAISS.from_documents`: embed every document's page content and pair it
with the document. -/
def from_documents (docs : List Doc) (embed : String → List Rat) : Index :=
  ⟨docs.map fun d => (embed d.page_content, d)⟩

/-- `save_local`: persist the index at `loc`. -/
def save_local (fs : DiskState) (loc : String) (idx : Index) : DiskState :=
  ⟨(loc, idx) :: fs.stored⟩

/-- Step 4 of `vector.py` (lines 160-170): load the persisted store if the
location exists, otherwise build from the documents and persist.  Returns
the store together with the resulting disk state. -/
def vector_store (fs : DiskState) (loc : String) (docs : List Doc)
    (embed : String → List Rat) : Index × DiskState :=
  if path_exists fs loc then (load_local fs loc, fs)
  else
    let idx := from_documents docs embed
    (idx, save_local fs loc idx)

/-! ## Decimal representation: helper theory for `Nat.repr` / `Int.repr` -/

/-- Structural recursion computing the decimal digit characters of `n`,
most significant first. -/
def natChars (n : Nat) : List Char :=
  if n < 10 then [Nat.digitChar n]
  else natChars (n / 10) ++ [Nat.digitChar (n % 10)]
termination_by n
decreasing_by exact Nat.div_lt_self (by omega) (by omega)

/-- The numeric value read back from a digit-character list. -/
def digitsVal (l : List Char) : Nat :=
  l.foldl (fun a c => 10 * a + (c.toNat - 48)) 0

/-- Classify an identifier string by its head character: `0` for a decimal
digit, `1`/`2`/`3` for the `Author-`/`Decade-`/`TopRated-` markers. -/
def idTag (s : String) : Nat :=
  match s.data.head? with
  | some c =>
    if c.isDigit then 0
    else if c = 'A' then 1
    else if c = 'D' then 2
    else if c = 'T' then 3
    else 4
  | none => 5

/-! ## Concrete inputs used by the witnesses and counterexamples -/

/-- The two-record scenario of the specification (§8). -/
def scenario : List Record :=
  [⟨1, "A", ["X"], some 1990, some (mkRat 9 2), some 10, ""⟩,
   ⟨2, "B", ["X", "Y"], some 1990, some 3, some 5, ""⟩]

/-- A record whose `ratings_count` is missing but whose rating places it in
the top 50. -/
def missingCount : Record := ⟨7, "A", ["X"], some 1990, some (mkRat 9 2), none, "u"⟩

/-- A record with a missing `average_rating` (and a present count). -/
def noRating : Record := ⟨9, "NR", ["W"], some 1980, none, some 4, ""⟩

/-- Two records sharing the identifier `1`. -/
def dupIdRecords : List Record :=
  [⟨1, "A", ["X"], some 1990, some 4, some 10, ""⟩,
   ⟨1, "B", ["Y"], some 1990, some 3, some 5, ""⟩]

/-- A small corpus with one missing-year record. -/
def wC5 : List Record :=
  [⟨1, "A", ["X"], some 1985, some 4, some 3, ""⟩,
   ⟨2, "B", [], none, none, none, ""⟩]

/-- A small corpus with a missing-year record, for the decade-id witness. -/
def wC9 : List Record :=
  [⟨1, "A", ["X"], some 1993, some 4, some 3, ""⟩,
   ⟨2, "B", ["Y"], none, some 3, some 2, ""⟩]

/-- The first decade document of `wC9`. -/
def wC9doc : Doc := (decade_docs wC9).getD 0 ⟨"", .authorAgg "" 0, ""⟩

/-- A record with every numeric field missing. -/
def wC10 : Record := ⟨3, "T", ["Z"], none, none, none, ""⟩

/-- A three-line raw file for the chunked-loading witness. -/
def wFile : List RawRecord :=
  [⟨1, "A", ["X"], .val 1990, .val 4, .val 10, ""⟩,
   ⟨2, "B", ["Y"], .missing, .unparsable, .val 5, ""⟩,
   ⟨3, "C", [], .val 2001, .missing, .missing, ""⟩]

/-- A document for the vector-store witness. -/
def wDoc : Doc := ⟨"some content", .authorAgg "X" 1, "Author-X"⟩

/-- A concrete embedding function for the vector-store witness. -/
def wEmbed (s : String) : List Rat := [(s.length : Rat)]

theorem digitChar_toNat {d : Nat} (h : d < 10) : (Nat.digitChar d).toNat = 48 + d := by
  interval_cases d <;> rfl

theorem digitChar_isDigit {d : Nat} (h : d < 10) : (Nat.digitChar d).isDigit = true := by
  interval_cases d <;> rfl

theorem toDigitsCore_eq_natChars (n : Nat) : ∀ (fuel : Nat) (acc : List Char),
    n < fuel → Nat.toDigitsCore 10 fuel n acc = natChars n ++ acc := by
  induction n using Nat.strong_induction_on with
  | _ n ih =>
    intro fuel acc hfuel
    match fuel, hfuel with
    | fuel + 1, _ =>
      simp only [Nat.toDigitsCore]
      by_cases h10 : n < 10
      · have hz : n / 10 = 0 := Nat.div_eq_of_lt h10
        have hm : n % 10 = n := Nat.mod_eq_of_lt h10
        rw [if_pos hz, natChars, if_pos h10, hm]
        rfl
      · have hz : ¬ n / 10 = 0 := by omega
        have hlt : n / 10 < n := Nat.div_lt_self (by omega) (by omega)
        rw [if_neg hz, ih (n / 10) hlt fuel (Nat.digitChar (n % 10) :: acc) (by omega)]
        conv_rhs => rw [natChars, if_neg h10]
        rw [List.append_assoc]
        rfl

theorem repr_eq_natChars (n : Nat) : Nat.repr n = (natChars n).asString := by
  show (Nat.toDigits 10 n).asString = (natChars n).asString
  rw [show Nat.toDigits 10 n = Nat.toDigitsCore 10 (n + 1) n [] from rfl,
    toDigitsCore_eq_natChars n (n + 1) [] (by omega), List.append_nil]

theorem digitsVal_append_singleton (l : List Char) (c : Char) :
    digitsVal (l ++ [c]) = 10 * digitsVal l + (c.toNat - 48) := by
  simp [digitsVal, List.foldl_append]

theorem digitsVal_natChars (n : Nat) : digitsVal (natChars n) = n := by
  induction n using Nat.strong_induction_on with
  | _ n ih =>
    rw [natChars]
    by_cases h10 : n < 10
    · simp only [if_pos h10, digitsVal, List.foldl_cons, List.foldl_nil]
      rw [digitChar_toNat h10]
      omega
    · have hlt : n / 10 < n := Nat.div_lt_self (by omega) (by omega)
      rw [if_neg h10, digitsVal_append_singleton, ih (n / 10) hlt,
        digitChar_toNat (Nat.mod_lt n (by omega))]
      omega

theorem natChars_injective : Function.Injective natChars := by
  intro a b h
  have := congrArg digitsVal h
  rwa [digitsVal_natChars, digitsVal_natChars] at this

theorem asString_injective : Function.Injective List.asString := by
  intro a b h
  exact congrArg String.data h

theorem natRepr_injective : Function.Injective Nat.repr := by
  intro a b h
  rw [repr_eq_natChars, repr_eq_natChars] at h
  exact natChars_injective (asString_injective h)

theorem natChars_head_isDigit (n : Nat) :
    ∃ c cs, natChars n = c :: cs ∧ c.isDigit = true := by
  induction n using Nat.strong_induction_on with
  | _ n ih =>
    rw [natChars]
    by_cases h10 : n < 10
    · exact ⟨Nat.digitChar n, [], by rw [if_pos h10], digitChar_isDigit h10⟩
    · have hlt : n / 10 < n := Nat.div_lt_self (by omega) (by omega)
      obtain ⟨c, cs, hc, hd⟩ := ih (n / 10) hlt
      exact ⟨c, cs ++ [Nat.digitChar (n % 10)], by rw [if_neg h10, hc]; rfl, hd⟩

theorem natRepr_head_isDigit (n : Nat) :
    ∃ c cs, (Nat.repr n).data = c :: cs ∧ c.isDigit = true := by
  obtain ⟨c, cs, hc, hd⟩ := natChars_head_isDigit n
  refine ⟨c, cs, ?_, hd⟩
  rw [repr_eq_natChars, hc]
  rfl

theorem intRepr_ofNat (m : Nat) : Int.repr (Int.ofNat m) = Nat.repr m := rfl

theorem intRepr_negSucc (m : Nat) :
    Int.repr (Int.negSucc m) = "-" ++ Nat.repr (m + 1) := rfl

theorem intRepr_injective : Function.Injective Int.repr := by
  intro a b h
  match a, b with
  | Int.ofNat m, Int.ofNat k =>
    rw [intRepr_ofNat, intRepr_ofNat] at h
    rw [natRepr_injective h]
  | Int.negSucc m, Int.negSucc k =>
    rw [intRepr_negSucc, intRepr_negSucc] at h
    have hd := congrArg String.data h
    rw [String.data_append, String.data_append] at hd
    have h1 := List.append_cancel_left hd
    have h2 : m + 1 = k + 1 := natRepr_injective (String.ext h1)
    have h3 : m = k := by omega
    rw [h3]
  | Int.ofNat m, Int.negSucc k =>
    exfalso
    rw [intRepr_ofNat, intRepr_negSucc] at h
    obtain ⟨c, cs, hc, hdig⟩ := natRepr_head_isDigit m
    have hd := congrArg String.data h
    rw [String.data_append, hc] at hd
    have : c = '-' := by
      have := congrArg List.head? hd
      simpa using this
    rw [this] at hdig
    simp at hdig
  | Int.negSucc m, Int.ofNat k =>
    exfalso
    rw [intRepr_ofNat, intRepr_negSucc] at h
    obtain ⟨c, cs, hc, hdig⟩ := natRepr_head_isDigit k
    have hd := congrArg String.data h.symm
    rw [String.data_append, hc] at hd
    have : c = '-' := by
      have := congrArg List.head? hd
      simpa using this
    rw [this] at hdig
    simp at hdig

/-! ## String and identifier helper lemmas -/

theorem string_append_left_cancel {s a b : String} (h : s ++ a = s ++ b) :
    a = b := by
  apply String.ext
  have hd := congrArg String.data h
  rw [String.data_append, String.data_append] at hd
  exact List.append_cancel_left hd

theorem string_append_right_cancel {a b s : String} (h : a ++ s = b ++ s) :
    a = b := by
  apply String.ext
  have hd := congrArg String.data h
  rw [String.data_append, String.data_append] at hd
  exact List.append_cancel_right hd

theorem pyIntFloatStr_eq (v : Int) : pyIntFloatStr v = Int.repr v ++ ".0" := by
  match v with
  | Int.ofNat m =>
    have h : ¬ (Int.ofNat m < 0) := not_lt.mpr (Int.ofNat_nonneg m)
    simp only [pyIntFloatStr, if_neg h]
    rfl
  | Int.negSucc m =>
    have h : Int.negSucc m < 0 := Int.negSucc_lt_zero m
    simp only [pyIntFloatStr, if_pos h]
    rfl

theorem pyIntFloatStr_natCast (c : Nat) :
    pyIntFloatStr (c : Int) = Nat.repr c ++ ".0" := by
  rw [pyIntFloatStr_eq]
  rfl

theorem idTag_natRepr (n : Nat) : idTag (Nat.repr n) = 0 := by
  obtain ⟨c, cs, hc, hd⟩ := natRepr_head_isDigit n
  unfold idTag
  rw [hc]
  simp [hd]

theorem head_author (s : String) : ("Author-" ++ s).data.head? = some 'A' := by
  rw [String.data_append]
  rfl

theorem head_decade (s : String) : ("Decade-" ++ s).data.head? = some 'D' := by
  rw [String.data_append]
  rfl

theorem head_toprated (s : String) :
    ("TopRated-" ++ s).data.head? = some 'T' := by
  rw [String.data_append]
  rfl

theorem idTag_author (s : String) : idTag ("Author-" ++ s) = 1 := by
  unfold idTag
  rw [head_author]
  decide

theorem idTag_decade (s : String) : idTag ("Decade-" ++ s) = 2 := by
  unfold idTag
  rw [head_decade]
  decide

theorem idTag_toprated (s : String) : idTag ("TopRated-" ++ s) = 3 := by
  unfold idTag
  rw [head_toprated]
  decide

/-- Two lists of identifiers whose `idTag`s are distinct constants are
disjoint. -/
theorem disjoint_of_idTag {l₁ l₂ : List String} {t₁ t₂ : Nat}
    (h₁ : ∀ x ∈ l₁, idTag x = t₁) (h₂ : ∀ x ∈ l₂, idTag x = t₂)
    (hne : t₁ ≠ t₂) : l₁.Disjoint l₂ := by
  rw [List.disjoint_left]
  intro a ha₁ ha₂
  exact hne ((h₁ a ha₁).symm.trans (h₂ a ha₂))

/-! ## Chunked loading -/

theorem flatten_chunksOfAux {α : Type} (m : Nat) :
    ∀ (fuel : Nat) (l : List α), l.length ≤ fuel →
      (chunksOfAux (m + 1) fuel l).flatten = l := by
  intro fuel
  induction fuel with
  | zero =>
    intro l hl
    have h : l = [] := List.eq_nil_of_length_eq_zero (by omega)
    rw [h]
    rfl
  | succ fuel ih =>
    intro l hl
    match l with
    | [] => rfl
    | x :: xs =>
      show ((x :: xs).take (m + 1) ::
        chunksOfAux (m + 1) fuel ((x :: xs).drop (m + 1))).flatten = x :: xs
      rw [List.flatten_cons, ih ((x :: xs).drop (m + 1))
        (by simp only [List.length_drop, List.length_cons] at hl ⊢; omega)]
      exact List.take_append_drop (m + 1) (x :: xs)

theorem flatten_chunksOf {α : Type} (m : Nat) (l : List α) :
    (chunksOf (m + 1) l).flatten = l :=
  flatten_chunksOfAux m l.length l (le_refl _)

/-! ## Author explosion and grouping lemmas -/

theorem explode_authors_key_length (r : Record) :
    ((explode_authors r).filterMap id).length = r.authors.length := by
  unfold explode_authors
  match h : r.authors with
  | [] => rfl
  | a :: as =>
    rw [List.filterMap_map]
    simp [List.filterMap_eq_map]

theorem exploded_keys_length (rs : List Record) :
    ((exploded_authors rs).filterMap id).length
      = (rs.map fun r => r.authors.length).sum := by
  induction rs with
  | nil => rfl
  | cons r rs ih =>
    rw [show exploded_authors (r :: rs) = explode_authors r ++ exploded_authors rs
      from by simp [exploded_authors]]
    rw [List.filterMap_append, List.length_append, List.map_cons, List.sum_cons,
      explode_authors_key_length, ih]

theorem books_by_author_count_sum (rs : List Record) :
    ((books_by_author rs).map Prod.snd).sum
      = ((exploded_authors rs).filterMap id).length := by
  unfold books_by_author
  have h1 := (List.perm_insertionSort (fun x y : String × Nat => y.2 ≤ x.2)
    ((List.insertionSort strLe ((exploded_authors rs).filterMap id).dedup).map
      fun a => (a, ((exploded_authors rs).filterMap id).count a))).map Prod.snd
  rw [h1.sum_eq, List.map_map]
  have h2 := (List.perm_insertionSort strLe
    ((exploded_authors rs).filterMap id).dedup).map
    fun a => ((exploded_authors rs).filterMap id).count a
  calc ((List.insertionSort strLe ((exploded_authors rs).filterMap id).dedup).map
          (Prod.snd ∘ fun a => (a, ((exploded_authors rs).filterMap id).count a))).sum
      = ((List.insertionSort strLe ((exploded_authors rs).filterMap id).dedup).map
          fun a => ((exploded_authors rs).filterMap id).count a).sum := rfl
    _ = (((exploded_authors rs).filterMap id).dedup.map
          fun a => ((exploded_authors rs).filterMap id).count a).sum := h2.sum_eq
    _ = ((exploded_authors rs).filterMap id).length :=
          List.sum_map_count_dedup_eq_length _

/-! ## Decade grouping lemmas -/

theorem decade_keys_length (rs : List Record) :
    (rs.filterMap decadeOf).length
      = (rs.filter fun r => r.publication_year.isSome).length := by
  induction rs with
  | nil => rfl
  | cons r rs ih =>
    rw [List.filterMap_cons, List.filter_cons]
    match h : r.publication_year with
    | none =>
      rw [show decadeOf r = none from by unfold decadeOf; rw [h]; rfl]
      simpa using ih
    | some y =>
      rw [show decadeOf r = some (Int.fdiv y 10 * 10) from by
        unfold decadeOf; rw [h]; rfl]
      simpa using ih

theorem books_by_decade_count_sum (rs : List Record) :
    ((books_by_decade rs).map Prod.snd).sum = (rs.filterMap decadeOf).length := by
  unfold books_by_decade
  rw [List.map_map]
  have h2 := (List.perm_insertionSort (fun a b : Int => a ≤ b)
    (rs.filterMap decadeOf).dedup).map fun d => (rs.filterMap decadeOf).count d
  calc ((List.insertionSort (fun a b : Int => a ≤ b) (rs.filterMap decadeOf).dedup).map
          (Prod.snd ∘ fun d => (d, (rs.filterMap decadeOf).count d))).sum
      = ((List.insertionSort (fun a b : Int => a ≤ b) (rs.filterMap decadeOf).dedup).map
          fun d => (rs.filterMap decadeOf).count d).sum := rfl
    _ = ((rs.filterMap decadeOf).dedup.map
          fun d => (rs.filterMap decadeOf).count d).sum := h2.sum_eq
    _ = (rs.filterMap decadeOf).length := List.sum_map_count_dedup_eq_length _

/-! ## Top-rated loop lemmas -/

theorem rating_docs_loop_ok (dt : DTypes) (l : List Record)
    (h : ∀ r ∈ l, r.ratings_count ≠ none) :
    ∃ ds, rating_docs_loop dt l = .ok ds ∧
      ds.map Doc.id = l.map fun r => "TopRated-" ++ Nat.repr r.id := by
  induction l with
  | nil => exact ⟨[], rfl, rfl⟩
  | cons r l ih =>
    obtain ⟨ds, hds, hids⟩ := ih fun x hx => h x (List.mem_cons_of_mem _ hx)
    match hc : r.ratings_count with
    | none => exact absurd hc (h r (List.mem_cons_self _ _))
    | some c =>
      refine ⟨⟨"Highly rated book: " ++ r.title ++ " by " ++
          String.intercalate ", " r.authors ++ ", average rating " ++
          optRatColStr dt.ratingFloat r.average_rating ++ " from " ++
          optIntColStr dt.countFloat r.ratings_count ++ " ratings.",
        .topRated r.title r.authors r.average_rating c,
        "TopRated-" ++ Nat.repr r.id⟩ :: ds, ?_, ?_⟩
      · simp only [rating_docs_loop, rating_doc, hc, hds]
      · simp only [List.map_cons, hids]

/-! ## Identifier lists of the four passes -/

theorem book_docs_ids (rs : List Record) :
    (book_docs rs).map Doc.id = rs.map fun r => Nat.repr r.id := by
  unfold book_docs
  rw [List.map_map]
  rfl

theorem author_docs_ids (rs : List Record) :
    (author_docs rs).map Doc.id
      = (books_by_author rs).map fun p => "Author-" ++ p.1 := by
  unfold author_docs
  rw [List.map_map]
  rfl

theorem decade_docs_ids (rs : List Record) :
    (decade_docs rs).map Doc.id
      = (books_by_decade rs).map fun p =>
          "Decade-" ++
            (if (dtypes rs).yearFloat then pyIntFloatStr p.1 else Int.repr p.1) := by
  unfold decade_docs
  rw [List.map_map]
  rfl

theorem rating_doc_inv (dt : DTypes) (r : Record) (d : Doc)
    (h : rating_doc dt r = .ok d) : d.id = "TopRated-" ++ Nat.repr r.id := by
  unfold rating_doc at h
  match hc : r.ratings_count with
  | none => rw [hc] at h; cases h
  | some c => rw [hc] at h; cases h; rfl

theorem rating_docs_loop_ids (dt : DTypes) :
    ∀ (l : List Record) (ds : List Doc), rating_docs_loop dt l = .ok ds →
      ds.map Doc.id = l.map fun r => "TopRated-" ++ Nat.repr r.id := by
  intro l
  induction l with
  | nil =>
    intro ds h
    cases h
    rfl
  | cons r l ih =>
    intro ds h
    rw [show rating_docs_loop dt (r :: l)
        = (match rating_doc dt r with
           | .error e => .error e
           | .ok d =>
             match rating_docs_loop dt l with
             | .error e => .error e
             | .ok ds => .ok (d :: ds)) from rfl] at h
    match hc : rating_doc dt r with
    | .error e => rw [hc] at h; cases h
    | .ok d =>
      rw [hc] at h
      match hl : rating_docs_loop dt l with
      | .error e => rw [hl] at h; cases h
      | .ok ds2 =>
        rw [hl] at h
        cases h
        rw [List.map_cons, List.map_cons, ih ds2 hl, rating_doc_inv dt r d hc]

/-! ## Nodup lemmas for the identifier classes -/

theorem books_by_author_keys_nodup (rs : List Record) :
    ((books_by_author rs).map Prod.fst).Nodup := by
  unfold books_by_author
  have hp := (List.perm_insertionSort (fun x y : String × Nat => y.2 ≤ x.2)
    ((List.insertionSort strLe ((exploded_authors rs).filterMap id).dedup).map
      fun a => (a, ((exploded_authors rs).filterMap id).count a))).map Prod.fst
  rw [hp.nodup_iff, List.map_map,
    show (Prod.fst ∘ fun a => (a, ((exploded_authors rs).filterMap id).count a))
      = id from rfl, List.map_id]
  exact (List.perm_insertionSort strLe
    ((exploded_authors rs).filterMap id).dedup).nodup_iff.mpr (List.nodup_dedup _)

theorem books_by_decade_keys_nodup (rs : List Record) :
    ((books_by_decade rs).map Prod.fst).Nodup := by
  unfold books_by_decade
  rw [List.map_map,
    show (Prod.fst ∘ fun d => (d, (rs.filterMap decadeOf).count d)) = id from rfl,
    List.map_id]
  exact (List.perm_insertionSort (fun a b : Int => a ≤ b)
    (rs.filterMap decadeOf).dedup).nodup_iff.mpr (List.nodup_dedup _)

theorem book_ids_nodup (rs : List Record) (hid : (rs.map Record.id).Nodup) :
    ((book_docs rs).map Doc.id).Nodup := by
  rw [book_docs_ids]
  have h1 : ((rs.map Record.id).map Nat.repr).Nodup :=
    List.Nodup.map natRepr_injective hid
  rw [List.map_map] at h1
  exact h1

theorem author_ids_nodup (rs : List Record) :
    ((author_docs rs).map Doc.id).Nodup := by
  rw [author_docs_ids]
  have h1 : (((books_by_author rs).map Prod.fst).map fun s => "Author-" ++ s).Nodup :=
    List.Nodup.map (fun a b hab => string_append_left_cancel hab)
      (books_by_author_keys_nodup rs)
  rw [List.map_map] at h1
  exact h1

theorem decade_render_injective (b : Bool) :
    Function.Injective fun d : Int =>
      "Decade-" ++ (if b then pyIntFloatStr d else Int.repr d) := by
  intro x y h
  have h2 := string_append_left_cancel h
  match b with
  | true =>
    rw [if_pos rfl, if_pos rfl, pyIntFloatStr_eq, pyIntFloatStr_eq] at h2
    exact intRepr_injective (string_append_right_cancel h2)
  | false =>
    rw [if_neg Bool.false_ne_true, if_neg Bool.false_ne_true] at h2
    exact intRepr_injective h2

theorem decade_ids_nodup (rs : List Record) :
    ((decade_docs rs).map Doc.id).Nodup := by
  rw [decade_docs_ids]
  have h1 : (((books_by_decade rs).map Prod.fst).map fun d =>
      "Decade-" ++
        (if (dtypes rs).yearFloat then pyIntFloatStr d else Int.repr d)).Nodup :=
    List.Nodup.map (decade_render_injective (dtypes rs).yearFloat)
      (books_by_decade_keys_nodup rs)
  rw [List.map_map] at h1
  exact h1

theorem top_ids_nodup (rs : List Record) (hid : (rs.map Record.id).Nodup) :
    ((top_books rs).map fun r => "TopRated-" ++ Nat.repr r.id).Nodup := by
  have h1 : ((rs.map Record.id).map Nat.repr).Nodup :=
    List.Nodup.map natRepr_injective hid
  have h2 : (((rs.map Record.id).map Nat.repr).map fun s => "TopRated-" ++ s).Nodup :=
    List.Nodup.map (fun a b hab => string_append_left_cancel hab) h1
  rw [List.map_map, List.map_map] at h2
  have hall : (rs.map fun r => "TopRated-" ++ Nat.repr r.id).Nodup := h2
  have hperm := (List.perm_insertionSort ratingGE rs).map
    fun r => "TopRated-" ++ Nat.repr r.id
  have hsorted : ((sort_by_rating_desc rs).map
      fun r => "TopRated-" ++ Nat.repr r.id).Nodup := hperm.nodup_iff.mpr hall
  unfold top_books
  rw [List.map_take]
  exact (List.take_sublist _ _).nodup hsorted

/-! ## Tag values of the identifier classes -/

theorem book_ids_tag (rs : List Record) :
    ∀ x ∈ (book_docs rs).map Doc.id, idTag x = 0 := by
  intro x hx
  rw [book_docs_ids] at hx
  obtain ⟨r, _, rfl⟩ := List.mem_map.mp hx
  exact idTag_natRepr _

theorem author_ids_tag (rs : List Record) :
    ∀ x ∈ (author_docs rs).map Doc.id, idTag x = 1 := by
  intro x hx
  rw [author_docs_ids] at hx
  obtain ⟨p, _, rfl⟩ := List.mem_map.mp hx
  exact idTag_author _

theorem decade_ids_tag (rs : List Record) :
    ∀ x ∈ (decade_docs rs).map Doc.id, idTag x = 2 := by
  intro x hx
  rw [decade_docs_ids] at hx
  obtain ⟨p, _, rfl⟩ := List.mem_map.mp hx
  exact idTag_decade _

theorem top_ids_tag (rs : List Record) :
    ∀ x ∈ (top_books rs).map fun r => "TopRated-" ++ Nat.repr r.id, idTag x = 3 := by
  intro x hx
  obtain ⟨r, _, rfl⟩ := List.mem_map.mp hx
  exact idTag_toprated _

theorem filterMap_decadeOf_filter (rs : List Record) :
    (rs.filter fun r => r.publication_year.isSome).filterMap decadeOf
      = rs.filterMap decadeOf := by
  induction rs with
  | nil => rfl
  | cons r rs ih =>
    rw [List.filter_cons, List.filterMap_cons]
    match h : r.publication_year with
    | none =>
      have hd : decadeOf r = none := by unfold decadeOf; rw [h]; rfl
      simp only [hd, Option.isSome_none, Bool.false_eq_true, if_false]
      exact ih
    | some y =>
      have hd : decadeOf r = some (Int.fdiv y 10 * 10) := by
        unfold decadeOf; rw [h]; rfl
      simp only [hd, Option.isSome_some, if_true, List.filterMap_cons]
      rw [ih]

/-! ## The claims -/

/-- C1 (code bug): document synthesis does *not* complete without raising on
every record set — on a single record whose `ratings_count` is missing, the
top-rated pass selects the record and its `int(row["ratings_count"])` raises
`ValueError: cannot convert float NaN to integer`, so the pipeline crashes
where the specification requires missing numeric fields never to crash it. -/
theorem claim_C1 :
    documents [missingCount] = .error "cannot convert float NaN to integer" := rfl

/-- C2 (amended): the top-rated pass iterates exactly the first
`min 50 n` rows of the stable descending sort on `average_rating` with
missing ratings placed last — not only rows with a non-missing rating.  The
selected sequence is non-increasing under the missing-last rating order,
every selected row dominates every non-selected row in that order, a
missing-rating row is selected only when every non-selected row also has a
missing rating, and when every selected row has a ratings count the pass
emits exactly one `TopRated` document per selected row, in order. -/
theorem claim_C2 (rs : List Record) :
    (top_books rs).length = min 50 rs.length ∧
    List.Pairwise ratingGE (top_books rs) ∧
    (∀ a ∈ top_books rs, ∀ b ∈ (sort_by_rating_desc rs).drop 50, ratingGE a b) ∧
    (top_books rs ++ (sort_by_rating_desc rs).drop 50).Perm rs ∧
    (∀ a ∈ top_books rs, a.average_rating = none →
      ∀ b ∈ (sort_by_rating_desc rs).drop 50, b.average_rating = none) ∧
    ((∀ r ∈ top_books rs, r.ratings_count ≠ none) →
      ∃ ds, rating_docs rs = .ok ds ∧
        ds.map Doc.id = (top_books rs).map fun r => "TopRated-" ++ Nat.repr r.id) := by
  have hsorted : List.Pairwise ratingGE (sort_by_rating_desc rs) :=
    List.sorted_insertionSort ratingGE rs
  have hsplit : top_books rs ++ (sort_by_rating_desc rs).drop 50
      = sort_by_rating_desc rs :=
    List.take_append_drop 50 (sort_by_rating_desc rs)
  have hdom : ∀ a ∈ top_books rs, ∀ b ∈ (sort_by_rating_desc rs).drop 50,
      ratingGE a b := by
    have h2 := hsorted
    rw [← hsplit] at h2
    exact (List.pairwise_append.mp h2).2.2
  refine ⟨?_, ?_, hdom, ?_, ?_, ?_⟩
  · unfold top_books sort_by_rating_desc
    rw [List.length_take, List.length_insertionSort]
  · exact List.Pairwise.sublist (List.take_sublist 50 _) hsorted
  · rw [hsplit]
    exact List.perm_insertionSort ratingGE rs
  · intro a ha hnone b hb
    have hge := hdom a ha b hb
    unfold ratingGE at hge
    rw [hnone] at hge
    match hb2 : b.average_rating with
    | none => rfl
    | some y => rw [hb2] at hge; exact hge.elim
  · intro h
    exact rating_docs_loop_ok (dtypes rs) (top_books rs) h

/-- C2 counterexample: on the one-record corpus whose only record has a
missing rating, the pass selects that record and emits a `TopRated` document
for it, contradicting "selecting only records with non-missing rating". -/
theorem claim_C2_counterexample :
    top_books [noRating] = [noRating] ∧ noRating.average_rating = none ∧
    (rating_docs [noRating]).toOption.map (List.map Doc.id)
      = some ["TopRated-9"] := by
  decide

/-- C2 witness: the amended theorem applied to the concrete two-record
scenario, with the emission hypothesis discharged by computation. -/
theorem claim_C2_witness :
    ∃ ds, rating_docs scenario = .ok ds ∧
      ds.map Doc.id = (top_books scenario).map fun r => "TopRated-" ++ Nat.repr r.id :=
  (claim_C2 scenario).2.2.2.2.2 (by decide)

/-- C3 (amended): provided no two records share an id, no two documents of a
successful synthesis share an identifier — Book ids are decimal strings,
the other classes carry distinct `Author-`/`Decade-`/`TopRated-` markers. -/
theorem claim_C3 (rs : List Record) (hid : (rs.map Record.id).Nodup)
    (ds : List Doc) (hds : documents rs = .ok ds) :
    (ds.map Doc.id).Nodup := by
  unfold documents at hds
  match htop : rating_docs rs with
  | .error e => rw [htop] at hds; cases hds
  | .ok tops =>
    rw [htop] at hds
    cases hds
    have htop2 : rating_docs_loop (dtypes rs) (top_books rs) = .ok tops := htop
    rw [List.map_append, List.map_append, List.map_append,
      rating_docs_loop_ids (dtypes rs) (top_books rs) tops htop2]
    have n0 := book_ids_nodup rs hid
    have n1 := author_ids_nodup rs
    have n2 := decade_ids_nodup rs
    have n3 := top_ids_nodup rs hid
    have t0 := book_ids_tag rs
    have t1 := author_ids_tag rs
    have t2 := decade_ids_tag rs
    have t3 := top_ids_tag rs
    have d01 := disjoint_of_idTag t0 t1 (by decide)
    have d02 := disjoint_of_idTag t0 t2 (by decide)
    have d03 := disjoint_of_idTag t0 t3 (by decide)
    have d12 := disjoint_of_idTag t1 t2 (by decide)
    have d13 := disjoint_of_idTag t1 t3 (by decide)
    have d23 := disjoint_of_idTag t2 t3 (by decide)
    exact ((n0.append n1 d01).append n2
        (List.disjoint_append_left.mpr ⟨d02, d12⟩)).append n3
      (List.disjoint_append_left.mpr ⟨List.disjoint_append_left.mpr ⟨d03, d13⟩, d23⟩)

/-- C3 counterexample: two records with the same id `1` synthesize
successfully and the resulting identifier list has a duplicate, refuting the
claim for arbitrary record sets. -/
theorem claim_C3_counterexample :
    (documents dupIdRecords).toOption.map (fun ds => decide (ds.map Doc.id).Nodup)
      = some false := by
  decide

/-- C3 witness: on the two-record scenario (distinct ids) the synthesized
identifiers are pairwise distinct. -/
theorem claim_C3_witness :
    (((documents scenario).toOption.getD []).map Doc.id).Nodup :=
  claim_C3 scenario (by decide) ((documents scenario).toOption.getD []) (by rfl)

/-- C4: on the two-record scenario of the specification, synthesis yields
exactly 2 Book documents with ids `1`, `2`, author aggregates `Author-X`
(count 2) and `Author-Y` (count 1), one decade aggregate `Decade-1990`
(count 2), and top-rated documents ordered id 1 then id 2. -/
theorem claim_C4 :
    (book_docs scenario).length = 2 ∧
    (book_docs scenario).map Doc.id = ["1", "2"] ∧
    (author_docs scenario).map (fun d => (d.id, d.metadata))
      = [("Author-X", .authorAgg "X" 2), ("Author-Y", .authorAgg "Y" 1)] ∧
    (decade_docs scenario).map (fun d => (d.id, d.metadata))
      = [("Decade-1990", .decadeAgg 1990 2)] ∧
    (rating_docs scenario).toOption.map (List.map Doc.id)
      = some ["TopRated-1", "TopRated-2"] := by
  decide

/-- C5: a record with a missing year has a missing decade, the decade
grouping is unchanged by dropping missing-year records (they contribute to
no group), and the decade counts sum to the number of records with a
non-missing year. -/
theorem claim_C5 (rs : List Record) :
    (∀ r ∈ rs, r.publication_year = none → decadeOf r = none) ∧
    books_by_decade rs
      = books_by_decade (rs.filter fun r => r.publication_year.isSome) ∧
    ((books_by_decade rs).map Prod.snd).sum
      = (rs.filter fun r => r.publication_year.isSome).length := by
  refine ⟨?_, ?_, ?_⟩
  · intro r _ h
    unfold decadeOf
    rw [h]
    rfl
  · unfold books_by_decade
    rw [filterMap_decadeOf_filter]
  · rw [books_by_decade_count_sum, decade_keys_length]

/-- C5 witness: the theorem applied to a concrete corpus with one
missing-year record. -/
theorem claim_C5_witness :
    decadeOf ⟨2, "B", [], none, none, none, ""⟩ = none ∧
    ((books_by_decade wC5).map Prod.snd).sum
      = (wC5.filter fun r => r.publication_year.isSome).length :=
  ⟨(claim_C5 wC5).1 ⟨2, "B", [], none, none, none, ""⟩ (by decide) rfl,
   (claim_C5 wC5).2.2⟩

/-- C6: a record with N authors contributes exactly N rows to the
author-aggregate grouping (after trimming) and exactly one Book document,
and the author-aggregate counts sum to the total exploded row count. -/
theorem claim_C6 (rs : List Record) :
    (∀ r ∈ rs, ((explode_authors r).filterMap id).length = r.authors.length) ∧
    (book_docs rs).length = rs.length ∧
    ((books_by_author rs).map Prod.snd).sum
      = (rs.map fun r => r.authors.length).sum :=
  ⟨fun r _ => explode_authors_key_length r,
   by unfold book_docs; rw [List.length_map],
   by rw [books_by_author_count_sum, exploded_keys_length]⟩

/-- C6 witness: the theorem applied to the two-record scenario, where the
two-author record contributes two grouping rows. -/
theorem claim_C6_witness :
    ((explode_authors ⟨2, "B", ["X", "Y"], some 1990, some 3, some 5, ""⟩).filterMap
        id).length = 2 ∧
    ((books_by_author scenario).map Prod.snd).sum
      = (scenario.map fun r => r.authors.length).sum :=
  ⟨((claim_C6 scenario).1 ⟨2, "B", ["X", "Y"], some 1990, some 3, some 5, ""⟩
      (by decide)).trans (by decide),
   (claim_C6 scenario).2.2⟩

/-- C7: for every file and every positive chunk size, chunked loading yields
exactly the record sequence of unchunked loading. -/
theorem claim_C7 (file : List RawRecord) (n : Nat) (hn : 0 < n) :
    load_jsonl_to_df file (some n) = load_jsonl_to_df file none := by
  obtain ⟨m, rfl⟩ : ∃ m, n = m + 1 := ⟨n - 1, by omega⟩
  show (if m + 1 = 0 then file else (chunksOf (m + 1) file).flatten).map
      normalizeRecord = file.map normalizeRecord
  rw [if_neg (by omega), flatten_chunksOf]

/-- C7 witness: chunked loading of a concrete three-line file with chunk
size 2 equals unchunked loading. -/
theorem claim_C7_witness :
    load_jsonl_to_df wFile (some 2) = load_jsonl_to_df wFile none :=
  claim_C7 wFile 2 (by decide)

/-- C8: if the location exists, `vector_store` returns the deserialized
persisted index, ignoring the documents argument and leaving the disk
unchanged; otherwise it embeds every document's content, builds the index
from the (embedding, document) pairs, persists it at the location, and
returns it.  The existence test is the sole discriminator. -/
theorem claim_C8 (fs : DiskState) (loc : String) (docs docs2 : List Doc)
    (embed : String → List Rat) :
    (path_exists fs loc = true →
      vector_store fs loc docs embed = (load_local fs loc, fs) ∧
      vector_store fs loc docs embed = vector_store fs loc docs2 embed) ∧
    (path_exists fs loc = false →
      (vector_store fs loc docs embed).1 = from_documents docs embed ∧
      (vector_store fs loc docs embed).1.pairs
        = docs.map (fun d => (embed d.page_content, d)) ∧
      (vector_store fs loc docs embed).2
        = save_local fs loc (from_documents docs embed) ∧
      load_local (vector_store fs loc docs embed).2 loc
        = (vector_store fs loc docs embed).1) := by
  constructor
  · intro h
    constructor
    · unfold vector_store
      rw [if_pos h]
    · unfold vector_store
      rw [if_pos h, if_pos h]
  · intro h
    have h2 : ¬ (path_exists fs loc = true) := by
      rw [h]
      exact Bool.false_ne_true
    refine ⟨?_, ?_, ?_, ?_⟩
    · unfold vector_store
      rw [if_neg h2]
    · unfold vector_store
      rw [if_neg h2]
      rfl
    · unfold vector_store
      rw [if_neg h2]
    · unfold vector_store
      rw [if_neg h2]
      show load_local (save_local fs loc (from_documents docs embed)) loc
          = from_documents docs embed
      unfold load_local save_local
      rw [List.find?_cons_of_pos _ (by simp)]
      rfl

/-- C8 witness: building on an empty disk embeds the single document. -/
theorem claim_C8_witness :
    (vector_store ⟨[]⟩ "BooksDB" [wDoc] wEmbed).1.pairs
      = [wDoc].map fun d => (wEmbed d.page_content, d) :=
  ((claim_C8 ⟨[]⟩ "BooksDB" [wDoc] [] wEmbed).2 (by decide)).2.1

/-- C9: every decade document's content renders the decade itself as a plain
integer in both dtype regimes, while its identifier renders the raw decade
cell: with every year present the decade/Count row is `int64`, the
identifier is `Decade-<int>`, and the count text is integral; with any year
missing the decade column is floating point, `iterrows` upcasts the row to
`float64`, and both the identifier and the content's count text gain a `.0`
suffix — but the content's decade, through `int(row["decade"])`, stays
integral. -/
theorem claim_C9 (rs : List Record) (doc : Doc) (hdoc : doc ∈ decade_docs rs) :
    ∃ d c, doc.metadata = .decadeAgg d c ∧
      ((∃ r ∈ rs, r.publication_year = none) →
        doc.id = "Decade-" ++ Int.repr d ++ ".0" ∧
        doc.page_content
          = "In the " ++ Int.repr d ++ "s, " ++ (Nat.repr c ++ ".0") ++
            " books were published.") ∧
      ((∀ r ∈ rs, r.publication_year ≠ none) →
        doc.id = "Decade-" ++ Int.repr d ∧
        doc.page_content
          = "In the " ++ Int.repr d ++ "s, " ++ Nat.repr c ++
            " books were published.") := by
  unfold decade_docs at hdoc
  obtain ⟨p, hp, rfl⟩ := List.mem_map.mp hdoc
  refine ⟨p.1, p.2, rfl, ?_, ?_⟩
  · intro hmiss
    have hfl : (dtypes rs).yearFloat = true := by
      show (rs.any fun r => r.publication_year.isNone) = true
      rw [List.any_eq_true]
      obtain ⟨r, hr, hnone⟩ := hmiss
      exact ⟨r, hr, by rw [hnone]; rfl⟩
    constructor
    · show "Decade-" ++
          (if (dtypes rs).yearFloat then pyIntFloatStr p.1 else Int.repr p.1)
          = "Decade-" ++ Int.repr p.1 ++ ".0"
      rw [hfl, if_pos rfl, pyIntFloatStr_eq, String.append_assoc]
    · show "In the " ++ Int.repr p.1 ++ "s, " ++
          (if (dtypes rs).yearFloat then pyIntFloatStr (p.2 : Int) else Nat.repr p.2) ++
          " books were published."
          = "In the " ++ Int.repr p.1 ++ "s, " ++ (Nat.repr p.2 ++ ".0") ++
            " books were published."
      rw [hfl, if_pos rfl, pyIntFloatStr_natCast]
  · intro hall
    have hfl : (dtypes rs).yearFloat = false := by
      show (rs.any fun r => r.publication_year.isNone) = false
      rw [List.any_eq_false]
      intro r hr
      match h2 : r.publication_year with
      | none => exact absurd h2 (hall r hr)
      | some y => rw [Option.isNone_some]; exact Bool.false_ne_true
    constructor
    · show "Decade-" ++
          (if (dtypes rs).yearFloat then pyIntFloatStr p.1 else Int.repr p.1)
          = "Decade-" ++ Int.repr p.1
      rw [hfl, if_neg Bool.false_ne_true]
    · show "In the " ++ Int.repr p.1 ++ "s, " ++
          (if (dtypes rs).yearFloat then pyIntFloatStr (p.2 : Int) else Nat.repr p.2) ++
          " books were published."
          = "In the " ++ Int.repr p.1 ++ "s, " ++ Nat.repr p.2 ++
            " books were published."
      rw [hfl, if_neg Bool.false_ne_true]

/-- C9 witness: on a corpus with a missing year, the 1990 decade document
gets identifier `Decade-1990.0` and count text `1.0`, while the content's
decade stays integral. -/
theorem claim_C9_witness :
    ∃ d c, wC9doc.metadata = Metadata.decadeAgg d c ∧
      ((∃ r ∈ wC9, r.publication_year = none) →
        wC9doc.id = "Decade-" ++ Int.repr d ++ ".0" ∧
        wC9doc.page_content
          = "In the " ++ Int.repr d ++ "s, " ++ (Nat.repr c ++ ".0") ++
            " books were published.") ∧
      ((∀ r ∈ wC9, r.publication_year ≠ none) →
        wC9doc.id = "Decade-" ++ Int.repr d ∧
        wC9doc.page_content
          = "In the " ++ Int.repr d ++ "s, " ++ Nat.repr c ++
            " books were published.") :=
  claim_C9 wC9 wC9doc (by decide)

/-- C10: the Book content sentence always contains all of its clauses, and a
missing year, rating, or count renders as the literal text `nan` in its
clause. -/
theorem claim_C10 (dt : DTypes) (r : Record) :
    ∃ y a c, (bookDoc dt r).page_content
        = "Book: " ++ r.title ++ " by " ++ String.intercalate ", " r.authors ++
          ". Published in " ++ y ++ ", average rating " ++ a ++ " from " ++ c ++
          " ratings." ∧
      (r.publication_year = none → y = "nan") ∧
      (r.average_rating = none → a = "nan") ∧
      (r.ratings_count = none → c = "nan") := by
  refine ⟨optIntColStr dt.yearFloat r.publication_year,
    optRatColStr dt.ratingFloat r.average_rating,
    optIntColStr dt.countFloat r.ratings_count, ?_, ?_, ?_, ?_⟩
  · rfl
  · intro h
    rw [h]
    rfl
  · intro h
    rw [h]
    rfl
  · intro h
    rw [h]
    rfl

/-- C10 witness: a record missing all three numeric fields renders with the
three `nan` texts in place. -/
theorem claim_C10_witness :
    (bookDoc (dtypes [wC10]) wC10).page_content
      = "Book: T by Z. Published in nan, average rating nan from nan ratings." := by
  obtain ⟨y, a, c, h, hy, ha, hc⟩ := claim_C10 (dtypes [wC10]) wC10
  rw [hy rfl, ha rfl, hc rfl] at h
  rw [h]
  decide
